import Mathlib

/-!
Shallow embedding of the database-side logic of the trimtime-queue-master
repository: the queue recompute procedure `update_queue_positions`, the
rating aggregation trigger `update_shop_rating`, the timestamp touch
trigger `update_updated_at_column`, and the identity-linked profile
creation routine `handle_new_user`, together with the table rows they
read and write.  Timestamps are modelled as naturals, SQL INTEGER values
as `Int`, SQL NUMERIC values as `Rat`, and NULLable columns as `Option`.
-/

namespace TrimTime

/-- booking_status enum: ('waiting', 'in_progress', 'completed', 'cancelled', 'no_show'). -/
inductive BookingStatus
  | waiting
  | in_progress
  | completed
  | cancelled
  | no_show
deriving DecidableEq, Repr

/-- user_role enum: ('customer', 'barber', 'admin'). -/
inductive UserRole
  | customer
  | barber
  | admin
deriving DecidableEq, Repr

/-- A row of public.bookings (columns relevant to the routines under study). -/
structure Booking where
  id : Nat
  user_id : Nat
  shop_id : Nat
  service_name : String
  status : BookingStatus
  queue_position : Option Int
  estimated_wait_time : Option Int
  joined_at : Nat
  updated_at : Nat
deriving DecidableEq, Repr

/-- A row of public.barber_shops (columns relevant to the routines under study). -/
structure Shop where
  id : Nat
  user_id : Nat
  shop_name : String
  avg_service_duration : Option Int
  rating_avg : Option ℚ
  total_reviews : Int
  updated_at : Nat
deriving DecidableEq, Repr

/-- A row of public.reviews (columns relevant to the routines under study). -/
structure Review where
  id : Nat
  user_id : Nat
  shop_id : Nat
  rating : Int
deriving DecidableEq, Repr

/-- A row of public.profiles. -/
structure Profile where
  id : Nat
  user_id : Nat
  name : String
  phone : String
  role : UserRole
  updated_at : Nat
deriving DecidableEq, Repr

/-- The database state touched by the shop-side routines. -/
structure DB where
  shops : List Shop
  bookings : List Booking
  reviews : List Review
deriving DecidableEq, Repr

/-- update_updated_at_column, fired BEFORE UPDATE on public.bookings
(trigger update_bookings_updated_at): NEW.updated_at = now(). -/
def update_updated_at_column (now : Nat) (NEW : Booking) : Booking :=
  { NEW with updated_at := now }

/-- update_updated_at_column, fired BEFORE UPDATE on public.barber_shops
(trigger update_barber_shops_updated_at): NEW.updated_at = now(). -/
def update_updated_at_column_shop (now : Nat) (NEW : Shop) : Shop :=
  { NEW with updated_at := now }

/-- update_updated_at_column, fired BEFORE UPDATE on public.profiles
(trigger update_profiles_updated_at): NEW.updated_at = now(). -/
def update_updated_at_column_profile (now : Nat) (NEW : Profile) : Profile :=
  { NEW with updated_at := now }

/-- ORDER BY joined_at ASC comparison used by the recompute cursor. -/
def byJoin (a b : Booking) : Prop := a.joined_at ≤ b.joined_at

instance : DecidableRel byJoin := fun a b => Nat.decLe a.joined_at b.joined_at

instance : IsTotal Booking byJoin := ⟨fun a b => Nat.le_total a.joined_at b.joined_at⟩

instance : IsTrans Booking byJoin := ⟨fun _ _ _ h h' => Nat.le_trans h h'⟩

/-- WHERE shop_id = shop_uuid AND status = 'waiting'. -/
def isWaitingFor (shop_uuid : Nat) (b : Booking) : Bool :=
  decide (b.shop_id = shop_uuid ∧ b.status = BookingStatus.waiting)

/-- SELECT id FROM public.bookings WHERE shop_id = shop_uuid AND
status = 'waiting' ORDER BY joined_at ASC (rows, before projecting id). -/
def waitingSorted (bs : List Booking) (shop_uuid : Nat) : List Booking :=
  List.insertionSort byJoin (bs.filter (isWaitingFor shop_uuid))

/-- SELECT avg_service_duration INTO avg_duration FROM public.barber_shops
WHERE id = shop_uuid; the variable stays NULL when no row matches. -/
def selectAvgDuration (shops : List Shop) (shop_uuid : Nat) : Option Int :=
  match shops.find? (fun s => s.id == shop_uuid) with
  | none => none
  | some s => s.avg_service_duration

/-- The SET clause of the per-row UPDATE inside the recompute loop, with the
BEFORE UPDATE touch trigger applied to the new row: queue_position =
position_counter, estimated_wait_time = (position_counter - 1) * avg_duration
(NULL propagates through the multiplication). -/
def queueUpdateRow (now : Nat) (avg : Option Int) (pos : Int) (b : Booking) : Booking :=
  update_updated_at_column now
    { b with
        queue_position := some pos,
        estimated_wait_time := avg.map (fun d => (pos - 1) * d) }

/-- UPDATE public.bookings SET ... WHERE id = booking_record.id. -/
def applyQueueUpdate (now : Nat) (avg : Option Int) (pos : Int) (bid : Nat)
    (bs : List Booking) : List Booking :=
  bs.map (fun b => if b.id = bid then queueUpdateRow now avg pos b else b)

/-- The FOR booking_record IN ... LOOP of update_queue_positions, iterating
over the selected ids with position_counter starting at the given value. -/
def updateLoop (now : Nat) (avg : Option Int) :
    List Nat → Int → List Booking → List Booking
  | [], _, bs => bs
  | bid :: rest, pos, bs =>
      updateLoop now avg rest (pos + 1) (applyQueueUpdate now avg pos bid bs)

/-- update_queue_positions(shop_uuid): read the shop's avg_service_duration,
then renumber its waiting bookings in joined_at order starting at 1. -/
def update_queue_positions (now : Nat) (db : DB) (shop_uuid : Nat) : DB :=
  let avg_duration := selectAvgDuration db.shops shop_uuid
  let ids := (waitingSorted db.bookings shop_uuid).map Booking.id
  { db with bookings := updateLoop now avg_duration ids 1 db.bookings }

/-- Floor of a rational as an integer (numerator floor-divided by denominator). -/
def floorQ (q : ℚ) : Int := q.num.fdiv (q.den : Int)

/-- Postgres ROUND(x) on numeric: round half away from zero to an integer. -/
def roundHalfAway (q : ℚ) : Int :=
  if q < 0 then -(floorQ (-q + 1 / 2)) else floorQ (q + 1 / 2)

/-- Postgres ROUND(x, 2) on numeric: round half away from zero to 2 decimals. -/
def round2 (q : ℚ) : ℚ := (roundHalfAway (q * 100) : ℚ) / 100

/-- SELECT ... FROM public.reviews WHERE shop_id = sid. -/
def shopReviews (rs : List Review) (sid : Nat) : List Review :=
  rs.filter (fun r => r.shop_id == sid)

/-- AVG(rating) over a review set: NULL on the empty set, else the mean. -/
def avgRating (rs : List Review) : Option ℚ :=
  match rs with
  | [] => none
  | _ => some (((rs.map (fun v => (v.rating : ℚ))).sum) / (rs.length : ℚ))

/-- update_shop_rating(), fired AFTER INSERT on public.reviews: UPDATE
public.barber_shops SET rating_avg = ROUND(AVG(rating)::numeric, 2),
total_reviews = COUNT(*) over the shop's reviews, WHERE id = NEW.shop_id.
The UPDATE fires the barber_shops BEFORE UPDATE touch trigger. -/
def update_shop_rating (now : Nat) (db : DB) (NEW : Review) : DB :=
  { db with
      shops := db.shops.map (fun s =>
        if s.id = NEW.shop_id then
          update_updated_at_column_shop now
            { s with
                rating_avg := (avgRating (shopReviews db.reviews NEW.shop_id)).map round2,
                total_reviews := ((shopReviews db.reviews NEW.shop_id).length : Int) }
        else s) }

/-- INSERT INTO public.reviews followed by the AFTER INSERT trigger
update_shop_rating_on_review. -/
def insertReview (now : Nat) (db : DB) (r : Review) : DB :=
  update_shop_rating now { db with reviews := db.reviews ++ [r] } r

/-- UPDATE on a review row (permitted by the reviews UPDATE policy to the
author); no trigger fires on reviews UPDATE, so shops are untouched. -/
def updateReviewRating (db : DB) (rid : Nat) (newRating : Int) : DB :=
  { db with
      reviews := db.reviews.map (fun r =>
        if r.id = rid then { r with rating := newRating } else r) }

/-- A shop's cached aggregates agree with the aggregate over its review rows. -/
def shopAggregatesConsistent (db : DB) : Prop :=
  ∀ s ∈ db.shops,
    s.rating_avg = (avgRating (shopReviews db.reviews s.id)).map round2 ∧
    s.total_reviews = ((shopReviews db.reviews s.id).length : Int)

instance (db : DB) : Decidable (shopAggregatesConsistent db) :=
  List.decidableBAll _ db.shops

/-- A row of auth.users as seen by handle_new_user: id plus the
raw_user_meta_data keys it reads (absent key = NULL). -/
structure AuthUser where
  id : Nat
  meta_name : Option String
  meta_phone : Option String
  meta_role : Option String
deriving DecidableEq, Repr

/-- The auth-side state: auth.users plus public.profiles. -/
structure AuthDB where
  users : List AuthUser
  profiles : List Profile
deriving DecidableEq, Repr

/-- The text-to-user_role cast: raises (here: error) on a value outside the
enum ('customer', 'barber', 'admin'). -/
def castUserRole (s : String) : Option UserRole :=
  if s = "customer" then some UserRole.customer
  else if s = "barber" then some UserRole.barber
  else if s = "admin" then some UserRole.admin
  else none

/-- The VALUES row built by handle_new_user: COALESCE(meta ->> 'name', ''),
COALESCE(meta ->> 'phone', ''), COALESCE((meta ->> 'role')::user_role,
'customer').  The cast of a non-NULL invalid role text raises. -/
def profileRowFor (now : Nat) (NEW : AuthUser) : Except Unit Profile :=
  match NEW.meta_role with
  | none =>
      Except.ok
        { id := NEW.id, user_id := NEW.id, name := NEW.meta_name.getD "",
          phone := NEW.meta_phone.getD "", role := UserRole.customer, updated_at := now }
  | some s =>
      match castUserRole s with
      | some r =>
          Except.ok
            { id := NEW.id, user_id := NEW.id, name := NEW.meta_name.getD "",
              phone := NEW.meta_phone.getD "", role := r, updated_at := now }
      | none => Except.error ()

/-- The profile row handle_new_user builds for identity u with role r. -/
def profileFor (now : Nat) (u : AuthUser) (r : UserRole) : Profile :=
  { id := u.id, user_id := u.id, name := u.meta_name.getD "",
    phone := u.meta_phone.getD "", role := r, updated_at := now }

/-- INSERT INTO public.profiles under the UNIQUE(user_id) constraint: a
duplicate user_id raises a unique violation. -/
def insertProfileRow (ps : List Profile) (p : Profile) : Except Unit (List Profile) :=
  if ps.any (fun q => q.user_id == p.user_id) then Except.error ()
  else Except.ok (ps ++ [p])

/-- handle_new_user(): build the profile row from NEW and insert it.  There
is no exception handler, so any error propagates to the caller. -/
def handle_new_user (now : Nat) (ps : List Profile) (NEW : AuthUser) :
    Except Unit (List Profile) :=
  match profileRowFor now NEW with
  | Except.ok p => insertProfileRow ps p
  | Except.error e => Except.error e

/-- INSERT INTO auth.users together with the AFTER INSERT trigger
on_auth_user_created: an error raised by the trigger aborts the whole
transaction, so neither the user row nor the profile row is kept. -/
def createUser (now : Nat) (st : AuthDB) (u : AuthUser) : Except Unit AuthDB :=
  match handle_new_user now st.profiles u with
  | Except.ok ps => Except.ok { users := st.users ++ [u], profiles := ps }
  | Except.error e => Except.error e

instance {ε α : Type} [DecidableEq ε] [DecidableEq α] : DecidableEq (Except ε α)
  | Except.ok x, Except.ok y =>
      if h : x = y then isTrue (by rw [h])
      else isFalse (by intro he; cases he; exact h rfl)
  | Except.ok _, Except.error _ => isFalse (by intro he; cases he)
  | Except.error _, Except.ok _ => isFalse (by intro he; cases he)
  | Except.error e, Except.error f =>
      if h : e = f then isTrue (by rw [h])
      else isFalse (by intro he; cases he; exact h rfl)

/-- Position of the first occurrence of an id in a list of ids. -/
def idxIn : List Nat → Nat → Option Nat
  | [], _ => none
  | x :: xs, bid => if x = bid then some 0 else (idxIn xs bid).map (fun i => i + 1)

/-- SELECT * FROM public.bookings WHERE id = bid (first match). -/
def findBooking (bs : List Booking) (bid : Nat) : Option Booking :=
  bs.find? (fun b => b.id == bid)

/-- The row transformation realised by one full pass of the recompute loop
over a fixed id list: the booking at offset i in the id list receives
position pos + i, every other booking is untouched. -/
def loopMapFun (now : Nat) (avg : Option Int) (ids : List Nat) (pos : Int)
    (b : Booking) : Booking :=
  match idxIn ids b.id with
  | some i => queueUpdateRow now avg (pos + (i : Int)) b
  | none => b

/-! Concrete data used by the witnesses and counterexamples. -/

/-- A shop with avg_service_duration = 30. -/
def demoShopA : Shop :=
  { id := 1, user_id := 2, shop_name := "Demo Cuts", avg_service_duration := some 30,
    rating_avg := some 0, total_reviews := 0, updated_at := 0 }

/-- Waiting booking A, joined first. -/
def demoBookingA : Booking :=
  { id := 10, user_id := 4, shop_id := 1, service_name := "cut",
    status := BookingStatus.waiting, queue_position := none,
    estimated_wait_time := none, joined_at := 1, updated_at := 0 }

/-- Waiting booking B, joined second. -/
def demoBookingB : Booking :=
  { id := 11, user_id := 5, shop_id := 1, service_name := "cut",
    status := BookingStatus.waiting, queue_position := none,
    estimated_wait_time := none, joined_at := 2, updated_at := 0 }

/-- Waiting booking C, joined third. -/
def demoBookingC : Booking :=
  { id := 12, user_id := 6, shop_id := 1, service_name := "cut",
    status := BookingStatus.waiting, queue_position := none,
    estimated_wait_time := none, joined_at := 3, updated_at := 0 }

/-- Three waiting bookings A, B, C joined in that order. -/
def demoBookingsA : List Booking := [demoBookingA, demoBookingB, demoBookingC]

def demoDBA : DB := { shops := [demoShopA], bookings := demoBookingsA, reviews := [] }

/-- The same shop with no configured average service duration. -/
def demoDBNull : DB :=
  { shops := [{ demoShopA with avg_service_duration := none }],
    bookings := demoBookingsA, reviews := [] }

/-- A shop whose cached aggregates match its single 5-star review. -/
def demoDB7 : DB :=
  { shops := [{ id := 1, user_id := 2, shop_name := "Demo Cuts",
                avg_service_duration := some 30, rating_avg := some 5,
                total_reviews := 1, updated_at := 0 }],
    bookings := [],
    reviews := [{ id := 1, user_id := 3, shop_id := 1, rating := 5 }] }

/-- A fresh 4-star review for the demo shop by another customer. -/
def demoReview2 : Review := { id := 2, user_id := 4, shop_id := 1, rating := 4 }

/-- A signup with a valid explicit role and no phone in the metadata. -/
def demoUserFresh : AuthUser :=
  { id := 7, meta_name := some "Alice", meta_phone := none, meta_role := some "barber" }

/-- A signup whose metadata carries a role text outside the enum. -/
def demoUserBadRole : AuthUser :=
  { id := 8, meta_name := none, meta_phone := none, meta_role := some "owner" }

/-- A signup with no role key in its metadata. -/
def demoUserNoRole : AuthUser :=
  { id := 9, meta_name := none, meta_phone := some "123", meta_role := none }

/-- An auth state with no users and no profiles. -/
def demoAuthEmpty : AuthDB := { users := [], profiles := [] }

/-- The profile row of identity 7. -/
def demoProfile7 : Profile :=
  { id := 7, user_id := 7, name := "Alice", phone := "",
    role := UserRole.barber, updated_at := 0 }

/-- An auth state in which identity 7 already has its profile row. -/
def demoAuthDup : AuthDB :=
  { users := [demoUserFresh], profiles := [demoProfile7] }

/-- The demo shop's row after demoReview2 is inserted at time 3: the mean
of ratings 5 and 4 is 4.5, rounded to 4.50, with 2 reviews total. -/
def demoShopAfter : Shop :=
  { id := 1, user_id := 2, shop_name := "Demo Cuts", avg_service_duration := some 30,
    rating_avg := some (9 / 2), total_reviews := 2, updated_at := 3 }

/-! Helper lemmas about the queue recompute loop. -/

theorem queueUpdateRow_id (now : Nat) (avg : Option Int) (pos : Int) (b : Booking) :
    (queueUpdateRow now avg pos b).id = b.id := rfl

theorem idxIn_eq_none {ids : List Nat} {bid : Nat} (h : bid ∉ ids) :
    idxIn ids bid = none := by
  induction ids with
  | nil => rfl
  | cons x xs ih =>
    simp only [List.mem_cons, not_or] at h
    have hx : ¬ (x = bid) := fun he => h.1 he.symm
    simp [idxIn, hx, ih h.2]

theorem idxIn_get {ids : List Nat} (hnd : ids.Nodup) {i : Nat} (hi : i < ids.length) :
    idxIn ids ids[i] = some i := by
  induction ids generalizing i with
  | nil => simp at hi
  | cons x xs ih =>
    rcases List.nodup_cons.mp hnd with ⟨hx, hxs⟩
    cases i with
    | zero => simp [idxIn]
    | succ j =>
      have hj : j < xs.length := by simpa using hi
      have hmem : xs[j] ∈ xs := List.getElem_mem hj
      have hne : ¬ (x = xs[j]) := fun he => hx (he ▸ hmem)
      simp [idxIn, hne, ih hxs hj]

theorem loopMapFun_id (now : Nat) (avg : Option Int) (ids : List Nat) (pos : Int)
    (b : Booking) : (loopMapFun now avg ids pos b).id = b.id := by
  unfold loopMapFun
  cases idxIn ids b.id <;> rfl

theorem loopMapFun_joined_at (now : Nat) (avg : Option Int) (ids : List Nat) (pos : Int)
    (b : Booking) : (loopMapFun now avg ids pos b).joined_at = b.joined_at := by
  unfold loopMapFun
  cases idxIn ids b.id <;> rfl

theorem loopMapFun_waiting (now : Nat) (avg : Option Int) (ids : List Nat) (pos : Int)
    (sid : Nat) (b : Booking) :
    isWaitingFor sid (loopMapFun now avg ids pos b) = isWaitingFor sid b := by
  unfold loopMapFun
  cases idxIn ids b.id <;> rfl

theorem loopMapFun_user_id (now : Nat) (avg : Option Int) (ids : List Nat) (pos : Int)
    (b : Booking) : (loopMapFun now avg ids pos b).user_id = b.user_id := by
  unfold loopMapFun
  cases idxIn ids b.id <;> rfl

theorem loopMapFun_shop_id (now : Nat) (avg : Option Int) (ids : List Nat) (pos : Int)
    (b : Booking) : (loopMapFun now avg ids pos b).shop_id = b.shop_id := by
  unfold loopMapFun
  cases idxIn ids b.id <;> rfl

theorem loopMapFun_service_name (now : Nat) (avg : Option Int) (ids : List Nat) (pos : Int)
    (b : Booking) : (loopMapFun now avg ids pos b).service_name = b.service_name := by
  unfold loopMapFun
  cases idxIn ids b.id <;> rfl

theorem loopMapFun_status (now : Nat) (avg : Option Int) (ids : List Nat) (pos : Int)
    (b : Booking) : (loopMapFun now avg ids pos b).status = b.status := by
  unfold loopMapFun
  cases idxIn ids b.id <;> rfl

theorem loopMapFun_eq_of_idx_none {ids : List Nat} {b : Booking}
    (h : idxIn ids b.id = none) (now : Nat) (avg : Option Int) (pos : Int) :
    loopMapFun now avg ids pos b = b := by
  unfold loopMapFun
  rw [h]

theorem loopMapFun_eq_of_idx_some {ids : List Nat} {b : Booking} {i : Nat}
    (h : idxIn ids b.id = some i) (now : Nat) (avg : Option Int) (pos : Int) :
    loopMapFun now avg ids pos b = queueUpdateRow now avg (pos + (i : Int)) b := by
  unfold loopMapFun
  rw [h]

theorem loopMapFun_idem (now now2 : Nat) (avg : Option Int) (ids : List Nat) (pos : Int)
    (b : Booking) :
    loopMapFun now2 avg ids pos (loopMapFun now avg ids pos b) =
      loopMapFun now2 avg ids pos b := by
  cases hidx : idxIn ids b.id with
  | none =>
    rw [loopMapFun_eq_of_idx_none hidx]
  | some i =>
    have h3 : idxIn ids (queueUpdateRow now avg (pos + (i : Int)) b).id = some i := by
      rw [queueUpdateRow_id]
      exact hidx
    rw [loopMapFun_eq_of_idx_some hidx, loopMapFun_eq_of_idx_some h3,
      loopMapFun_eq_of_idx_some hidx]
    rfl

theorem loopMapFun_proj (now now2 : Nat) (avg : Option Int) (ids : List Nat) (pos : Int)
    (b : Booking) :
    ((loopMapFun now2 avg ids pos b).id, (loopMapFun now2 avg ids pos b).queue_position,
      (loopMapFun now2 avg ids pos b).estimated_wait_time) =
    ((loopMapFun now avg ids pos b).id, (loopMapFun now avg ids pos b).queue_position,
      (loopMapFun now avg ids pos b).estimated_wait_time) := by
  cases hidx : idxIn ids b.id with
  | none => rw [loopMapFun_eq_of_idx_none hidx, loopMapFun_eq_of_idx_none hidx]
  | some i =>
    rw [loopMapFun_eq_of_idx_some hidx, loopMapFun_eq_of_idx_some hidx]
    rfl

theorem updateLoop_eq_map (now : Nat) (avg : Option Int) :
    ∀ (ids : List Nat) (pos : Int) (bs : List Booking), ids.Nodup →
      updateLoop now avg ids pos bs = bs.map (loopMapFun now avg ids pos) := by
  intro ids
  induction ids with
  | nil =>
    intro pos bs _
    have h1 : bs.map (loopMapFun now avg [] pos) = bs.map (fun b => b) :=
      List.map_congr_left fun b _ => rfl
    rw [updateLoop, h1, List.map_id']
  | cons bid rest ih =>
    intro pos bs hnd
    rcases List.nodup_cons.mp hnd with ⟨hb, hrest⟩
    rw [updateLoop, ih (pos + 1) _ hrest, applyQueueUpdate, List.map_map]
    apply List.map_congr_left
    intro b _
    by_cases hid : b.id = bid
    · simp only [Function.comp_apply, if_pos hid]
      unfold loopMapFun
      rw [queueUpdateRow_id, hid, idxIn_eq_none hb]
      simp [idxIn]
    · simp only [Function.comp_apply, if_neg hid]
      unfold loopMapFun
      have hne : ¬ (bid = b.id) := fun he => hid he.symm
      cases h : idxIn rest b.id with
      | none => simp [idxIn, hne, h]
      | some i =>
        simp only [idxIn, if_neg hne, h, Option.map_some']
        have harith : pos + 1 + (i : Int) = pos + ((i + 1 : Nat) : Int) := by
          push_cast
          ring
        rw [harith]

theorem findBooking_map (h : Booking → Booking) (hid : ∀ b, (h b).id = b.id)
    (bs : List Booking) (bid : Nat) :
    findBooking (bs.map h) bid = (findBooking bs bid).map h := by
  induction bs with
  | nil => rfl
  | cons x xs ih =>
    unfold findBooking at *
    rw [List.map_cons]
    by_cases hx : x.id = bid
    · have hx1 : ((h x).id == bid) = true := by rw [hid x]; exact beq_iff_eq.mpr hx
      have hx2 : (x.id == bid) = true := beq_iff_eq.mpr hx
      rw [@List.find?_cons_of_pos _ (fun b => b.id == bid) (h x) (xs.map h) hx1,
        @List.find?_cons_of_pos _ (fun b => b.id == bid) x xs hx2]
      rfl
    · have hx1 : ¬ ((h x).id == bid) = true := by rw [hid x]; simpa using hx
      have hx2 : ¬ (x.id == bid) = true := by simpa using hx
      rw [@List.find?_cons_of_neg _ (fun b => b.id == bid) (h x) (xs.map h) hx1,
        @List.find?_cons_of_neg _ (fun b => b.id == bid) x xs hx2]
      exact ih

theorem findBooking_eq_some {bs : List Booking} (hnd : (bs.map Booking.id).Nodup)
    {b : Booking} (hb : b ∈ bs) : findBooking bs b.id = some b := by
  induction bs with
  | nil => cases hb
  | cons x xs ih =>
    rw [List.map_cons, List.nodup_cons] at hnd
    unfold findBooking
    rcases List.mem_cons.mp hb with rfl | hbx
    · rw [@List.find?_cons_of_pos _ (fun c => c.id == b.id) b xs (beq_iff_eq.mpr rfl)]
    · have hne : ¬ (x.id == b.id) = true := by
        simp only [beq_iff_eq]
        intro he
        exact hnd.1 (he ▸ List.mem_map_of_mem Booking.id hbx)
      rw [@List.find?_cons_of_neg _ (fun c => c.id == b.id) x xs hne]
      exact ih hnd.2 hbx

theorem mem_of_mem_waitingSorted {bs : List Booking} {sid : Nat} {b : Booking}
    (hb : b ∈ waitingSorted bs sid) : b ∈ bs := by
  unfold waitingSorted at hb
  exact (List.mem_filter.mp ((List.mem_insertionSort byJoin).mp hb)).1

theorem waitingSorted_nodup_ids {bs : List Booking} (hnd : (bs.map Booking.id).Nodup)
    (sid : Nat) : ((waitingSorted bs sid).map Booking.id).Nodup := by
  have h1 : ((bs.filter (isWaitingFor sid)).map Booking.id).Nodup :=
    ((List.filter_sublist bs).map Booking.id).nodup hnd
  have h2 : List.Perm ((waitingSorted bs sid).map Booking.id)
      ((bs.filter (isWaitingFor sid)).map Booking.id) :=
    (List.perm_insertionSort byJoin _).map Booking.id
  exact h2.nodup_iff.mpr h1

theorem waitingSorted_map (bs : List Booking) (sid : Nat) (h : Booking → Booking)
    (hw : ∀ b, isWaitingFor sid (h b) = isWaitingFor sid b)
    (hj : ∀ b, (h b).joined_at = b.joined_at) :
    waitingSorted (bs.map h) sid = (waitingSorted bs sid).map h := by
  unfold waitingSorted
  rw [List.filter_map]
  have hfun : (isWaitingFor sid ∘ h) = isWaitingFor sid := funext hw
  rw [hfun]
  refine (List.map_insertionSort byJoin byJoin h _ ?_).symm
  intro a _ b _
  unfold byJoin
  rw [hj a, hj b]

theorem update_queue_positions_shops (now : Nat) (db : DB) (sid : Nat) :
    (update_queue_positions now db sid).shops = db.shops := rfl

theorem update_queue_positions_reviews (now : Nat) (db : DB) (sid : Nat) :
    (update_queue_positions now db sid).reviews = db.reviews := rfl

theorem update_queue_positions_bookings (now : Nat) (db : DB) (sid : Nat)
    (hnd : (db.bookings.map Booking.id).Nodup) :
    (update_queue_positions now db sid).bookings =
      db.bookings.map (loopMapFun now (selectAvgDuration db.shops sid)
        ((waitingSorted db.bookings sid).map Booking.id) 1) :=
  updateLoop_eq_map _ _ _ _ _ (waitingSorted_nodup_ids hnd sid)

theorem DB_ext {x y : DB} (hs : x.shops = y.shops) (hb : x.bookings = y.bookings)
    (hr : x.reviews = y.reviews) : x = y := by
  cases x
  cases y
  simp only [DB.mk.injEq]
  exact ⟨hs, hb, hr⟩

theorem update_queue_positions_ids (now : Nat) (db : DB) (sid : Nat)
    (hnd : (db.bookings.map Booking.id).Nodup) :
    (update_queue_positions now db sid).bookings.map Booking.id =
      db.bookings.map Booking.id := by
  rw [update_queue_positions_bookings now db sid hnd, List.map_map]
  exact List.map_congr_left fun b _ => loopMapFun_id _ _ _ _ b

theorem update_queue_positions_nodup (now : Nat) (db : DB) (sid : Nat)
    (hnd : (db.bookings.map Booking.id).Nodup) :
    ((update_queue_positions now db sid).bookings.map Booking.id).Nodup := by
  rw [update_queue_positions_ids now db sid hnd]
  exact hnd

theorem waitingSorted_ids_stable (now : Nat) (db : DB) (sid : Nat)
    (hnd : (db.bookings.map Booking.id).Nodup) :
    (waitingSorted (update_queue_positions now db sid).bookings sid).map Booking.id =
      (waitingSorted db.bookings sid).map Booking.id := by
  rw [update_queue_positions_bookings now db sid hnd,
    waitingSorted_map db.bookings sid _
      (loopMapFun_waiting now (selectAvgDuration db.shops sid)
        ((waitingSorted db.bookings sid).map Booking.id) 1 sid)
      (loopMapFun_joined_at now (selectAvgDuration db.shops sid)
        ((waitingSorted db.bookings sid).map Booking.id) 1),
    List.map_map]
  exact List.map_congr_left fun b _ => loopMapFun_id _ _ _ _ b

theorem update_queue_positions_twice_bookings (db : DB) (sid : Nat) (now now2 : Nat)
    (hnd : (db.bookings.map Booking.id).Nodup) :
    (update_queue_positions now2 (update_queue_positions now db sid) sid).bookings =
      db.bookings.map (loopMapFun now2 (selectAvgDuration db.shops sid)
        ((waitingSorted db.bookings sid).map Booking.id) 1) := by
  rw [update_queue_positions_bookings now2 _ sid
      (update_queue_positions_nodup now db sid hnd),
    waitingSorted_ids_stable now db sid hnd,
    update_queue_positions_shops now db sid,
    update_queue_positions_bookings now db sid hnd,
    List.map_map]
  exact List.map_congr_left fun b _ => loopMapFun_idem now now2 _ _ 1 b

/-- Claim C1: after recompute(S), the waiting bookings of S in ascending
join-time order carry queue positions exactly 1..N, and the booking at
position p = 1 + i has estimated wait (p - 1) * avg_duration = i * d. -/
theorem update_queue_positions_correct (db : DB) (sid : Nat) (now : Nat) (d : Int)
    (hnd : (db.bookings.map Booking.id).Nodup)
    (havg : selectAvgDuration db.shops sid = some d) :
    List.Sorted byJoin (waitingSorted db.bookings sid) ∧
    List.Perm (waitingSorted db.bookings sid) (db.bookings.filter (isWaitingFor sid)) ∧
    ∀ i, (hi : i < (waitingSorted db.bookings sid).length) →
      findBooking (update_queue_positions now db sid).bookings
          ((waitingSorted db.bookings sid)[i]).id =
        some { (waitingSorted db.bookings sid)[i] with
                 queue_position := some (1 + (i : Int)),
                 estimated_wait_time := some ((i : Int) * d),
                 updated_at := now } := by
  refine ⟨List.sorted_insertionSort byJoin _, List.perm_insertionSort byJoin _, ?_⟩
  intro i hi
  have hids : i < ((waitingSorted db.bookings sid).map Booking.id).length := by
    simpa using hi
  have hb : (waitingSorted db.bookings sid)[i] ∈ db.bookings :=
    mem_of_mem_waitingSorted (List.getElem_mem hi)
  rw [update_queue_positions_bookings now db sid hnd,
    findBooking_map _ (loopMapFun_id now (selectAvgDuration db.shops sid)
      ((waitingSorted db.bookings sid).map Booking.id) 1),
    findBooking_eq_some hnd hb]
  have hidx : idxIn ((waitingSorted db.bookings sid).map Booking.id)
      ((waitingSorted db.bookings sid)[i]).id = some i := by
    have hgm : ((waitingSorted db.bookings sid).map Booking.id)[i] =
        ((waitingSorted db.bookings sid)[i]).id := List.getElem_map _
    rw [← hgm]
    exact idxIn_get (waitingSorted_nodup_ids hnd sid) hids
  have harith : (1 + (i : Int) - 1) = (i : Int) := by ring
  simp only [Option.map_some', loopMapFun, hidx, havg, queueUpdateRow,
    update_updated_at_column, harith]

/-- Witness for C1: the spec scenario, avg_duration = 30 and three waiting
bookings joined in order A, B, C, recomputed at time 9: A gets (pos 1,
wait 0), B gets (pos 2, wait 30), C gets (pos 3, wait 60). -/
theorem update_queue_positions_correct_witness :
    ((demoDBA.bookings.map Booking.id).Nodup ∧
      selectAvgDuration demoDBA.shops 1 = some 30) ∧
    (List.Sorted byJoin (waitingSorted demoDBA.bookings 1) ∧
      List.Perm (waitingSorted demoDBA.bookings 1)
        (demoDBA.bookings.filter (isWaitingFor 1)) ∧
      ∀ i, (hi : i < (waitingSorted demoDBA.bookings 1).length) →
        findBooking (update_queue_positions 9 demoDBA 1).bookings
            ((waitingSorted demoDBA.bookings 1)[i]).id =
          some { (waitingSorted demoDBA.bookings 1)[i] with
                   queue_position := some (1 + (i : Int)),
                   estimated_wait_time := some ((i : Int) * 30),
                   updated_at := 9 }) ∧
    (update_queue_positions 9 demoDBA 1).bookings.map
        (fun b => (b.id, b.queue_position, b.estimated_wait_time)) =
      [(10, some 1, some 0), (11, some 2, some 30), (12, some 3, some 60)] :=
  ⟨⟨by decide, by decide⟩,
    update_queue_positions_correct demoDBA 1 9 30 (by decide) (by decide),
    by decide⟩

/-- Claim C8: when the shop's avg_service_duration is NULL, recompute still
assigns positions 1..N in join order but the NULL propagates through the
wait-time multiplication, leaving every waiting booking's estimated wait
NULL rather than 0. -/
theorem update_queue_positions_null_avg (db : DB) (sid : Nat) (now : Nat)
    (hnd : (db.bookings.map Booking.id).Nodup)
    (havg : selectAvgDuration db.shops sid = none) :
    ∀ i, (hi : i < (waitingSorted db.bookings sid).length) →
      findBooking (update_queue_positions now db sid).bookings
          ((waitingSorted db.bookings sid)[i]).id =
        some { (waitingSorted db.bookings sid)[i] with
                 queue_position := some (1 + (i : Int)),
                 estimated_wait_time := none,
                 updated_at := now } := by
  intro i hi
  have hids : i < ((waitingSorted db.bookings sid).map Booking.id).length := by
    simpa using hi
  have hb : (waitingSorted db.bookings sid)[i] ∈ db.bookings :=
    mem_of_mem_waitingSorted (List.getElem_mem hi)
  rw [update_queue_positions_bookings now db sid hnd,
    findBooking_map _ (loopMapFun_id now (selectAvgDuration db.shops sid)
      ((waitingSorted db.bookings sid).map Booking.id) 1),
    findBooking_eq_some hnd hb]
  have hidx : idxIn ((waitingSorted db.bookings sid).map Booking.id)
      ((waitingSorted db.bookings sid)[i]).id = some i := by
    have hgm : ((waitingSorted db.bookings sid).map Booking.id)[i] =
        ((waitingSorted db.bookings sid)[i]).id := List.getElem_map _
    rw [← hgm]
    exact idxIn_get (waitingSorted_nodup_ids hnd sid) hids
  simp only [Option.map_some', loopMapFun, hidx, havg, queueUpdateRow,
    update_updated_at_column, Option.map_none']

/-- Witness for C8: the three-booking scenario with the shop's duration
NULL: all three waiting bookings get positions 1, 2, 3 and a NULL wait. -/
theorem update_queue_positions_null_avg_witness :
    ((demoDBNull.bookings.map Booking.id).Nodup ∧
      selectAvgDuration demoDBNull.shops 1 = none) ∧
    (∀ i, (hi : i < (waitingSorted demoDBNull.bookings 1).length) →
      findBooking (update_queue_positions 9 demoDBNull 1).bookings
          ((waitingSorted demoDBNull.bookings 1)[i]).id =
        some { (waitingSorted demoDBNull.bookings 1)[i] with
                 queue_position := some (1 + (i : Int)),
                 estimated_wait_time := none,
                 updated_at := 9 }) ∧
    (update_queue_positions 9 demoDBNull 1).bookings.map
        (fun b => (b.id, b.queue_position, b.estimated_wait_time)) =
      [(10, some 1, none), (11, some 2, none), (12, some 3, none)] :=
  ⟨⟨by decide, by decide⟩,
    update_queue_positions_null_avg demoDBNull 1 9 (by decide) (by decide),
    by decide⟩

/-- Claim C3: recompute is idempotent: a second consecutive run under the
same clock leaves the database identical, and under any clock the second
run changes no queue position or estimated wait value of any booking. -/
theorem update_queue_positions_idempotent (db : DB) (sid : Nat) (now now2 : Nat)
    (hnd : (db.bookings.map Booking.id).Nodup) :
    update_queue_positions now (update_queue_positions now db sid) sid =
      update_queue_positions now db sid ∧
    (update_queue_positions now2 (update_queue_positions now db sid) sid).bookings.map
        (fun b => (b.id, b.queue_position, b.estimated_wait_time)) =
      (update_queue_positions now db sid).bookings.map
        (fun b => (b.id, b.queue_position, b.estimated_wait_time)) := by
  constructor
  · refine DB_ext rfl ?_ rfl
    rw [update_queue_positions_twice_bookings db sid now now hnd,
      update_queue_positions_bookings now db sid hnd]
  · rw [update_queue_positions_twice_bookings db sid now now2 hnd,
      update_queue_positions_bookings now db sid hnd, List.map_map, List.map_map]
    exact List.map_congr_left fun b _ => loopMapFun_proj now now2 _ _ 1 b

/-- Witness for C3: on the three-booking demo state, recomputing twice at
time 9 equals recomputing once, and a second recompute at time 13 leaves
every id, position and wait value unchanged. -/
theorem update_queue_positions_idempotent_witness :
    (demoDBA.bookings.map Booking.id).Nodup ∧
    (update_queue_positions 9 (update_queue_positions 9 demoDBA 1) 1 =
        update_queue_positions 9 demoDBA 1 ∧
      (update_queue_positions 13 (update_queue_positions 9 demoDBA 1) 1).bookings.map
          (fun b => (b.id, b.queue_position, b.estimated_wait_time)) =
        (update_queue_positions 9 demoDBA 1).bookings.map
          (fun b => (b.id, b.queue_position, b.estimated_wait_time))) :=
  ⟨by decide, update_queue_positions_idempotent demoDBA 1 9 13 (by decide)⟩

/-- Claim C10: recompute touches only the queue_position, estimated_wait_time
and updated_at fields of the target shop's waiting bookings: shops and
reviews are untouched, every booking keeps its identity fields, and a
booking that is not a waiting booking of the target shop is unchanged. -/
theorem update_queue_positions_frame (db : DB) (sid : Nat) (now : Nat)
    (hnd : (db.bookings.map Booking.id).Nodup) :
    (update_queue_positions now db sid).shops = db.shops ∧
    (update_queue_positions now db sid).reviews = db.reviews ∧
    List.Forall₂ (fun b b' : Booking =>
        b'.id = b.id ∧ b'.user_id = b.user_id ∧ b'.shop_id = b.shop_id ∧
        b'.service_name = b.service_name ∧ b'.status = b.status ∧
        b'.joined_at = b.joined_at ∧
        (¬ (b.shop_id = sid ∧ b.status = BookingStatus.waiting) → b' = b))
      db.bookings (update_queue_positions now db sid).bookings := by
  refine ⟨rfl, rfl, ?_⟩
  rw [update_queue_positions_bookings now db sid hnd, List.forall₂_map_right_iff,
    List.forall₂_same]
  intro b hb
  refine ⟨loopMapFun_id _ _ _ _ b, loopMapFun_user_id _ _ _ _ b,
    loopMapFun_shop_id _ _ _ _ b, loopMapFun_service_name _ _ _ _ b,
    loopMapFun_status _ _ _ _ b, loopMapFun_joined_at _ _ _ _ b, ?_⟩
  intro hnw
  apply loopMapFun_eq_of_idx_none
  apply idxIn_eq_none
  intro hin
  rcases List.mem_map.mp hin with ⟨c, hc, hcid⟩
  have hcb : c ∈ db.bookings := mem_of_mem_waitingSorted hc
  have hceq : c = b := List.inj_on_of_nodup_map hnd hcb hb hcid
  have hw : isWaitingFor sid c = true :=
    (List.mem_filter.mp ((List.mem_insertionSort byJoin).mp hc)).2
  rw [hceq] at hw
  exact hnw (by simpa [isWaitingFor] using hw)

theorem shopReviews_append_self (rs : List Review) (r : Review) :
    shopReviews (rs ++ [r]) r.shop_id = shopReviews rs r.shop_id ++ [r] := by
  unfold shopReviews
  rw [List.filter_append]
  simp

theorem avgRating_ne_nil {rs : List Review} (h : rs ≠ []) :
    avgRating rs =
      some (((rs.map (fun v => (v.rating : ℚ))).sum) / (rs.length : ℚ)) := by
  cases rs with
  | nil => exact absurd rfl h
  | cons x xs => rfl

theorem insertReview_reviews (now : Nat) (db : DB) (r : Review) :
    (insertReview now db r).reviews = db.reviews ++ [r] := rfl

theorem insertReview_shops (now : Nat) (db : DB) (r : Review) :
    (insertReview now db r).shops = db.shops.map (fun s =>
      if s.id = r.shop_id then
        update_updated_at_column_shop now
          { s with
              rating_avg :=
                (avgRating (shopReviews (insertReview now db r).reviews r.shop_id)).map round2,
              total_reviews :=
                ((shopReviews (insertReview now db r).reviews r.shop_id).length : Int) }
      else s) := rfl

theorem update_shop_rating_shops (now : Nat) (db : DB) (NEW : Review) :
    (update_shop_rating now db NEW).shops = db.shops.map (fun s =>
      if s.id = NEW.shop_id then
        update_updated_at_column_shop now
          { s with
              rating_avg := (avgRating (shopReviews db.reviews NEW.shop_id)).map round2,
              total_reviews := ((shopReviews db.reviews NEW.shop_id).length : Int) }
      else s) := rfl

theorem shopReviews_insert_ne_nil (now : Nat) (db : DB) (r : Review) :
    shopReviews (insertReview now db r).reviews r.shop_id ≠ [] := by
  rw [insertReview_reviews, shopReviews_append_self]
  simp

theorem insertReview_aggregates (now : Nat) (db : DB) (r : Review) :
    ∀ s ∈ (insertReview now db r).shops, s.id = r.shop_id →
      s.rating_avg =
        (avgRating (shopReviews (insertReview now db r).reviews r.shop_id)).map round2 ∧
      s.total_reviews =
        ((shopReviews (insertReview now db r).reviews r.shop_id).length : Int) := by
  intro s hs hsid
  rw [insertReview_shops] at hs
  rcases List.mem_map.mp hs with ⟨s0, _, rfl⟩
  by_cases h0 : s0.id = r.shop_id
  · simp only [if_pos h0, update_updated_at_column_shop]
    constructor
    all_goals first
      | rfl
      | trivial
  · simp only [if_neg h0] at hsid
    exact absurd hsid h0

/-- Claim C2: after a new review is inserted (and its AFTER INSERT trigger
has fired), the owning shop's cached rating_avg equals the mean of all of
that shop's review ratings rounded to 2 decimals and its total_reviews
equals the count of those reviews; firing the aggregation again over the
same review set reproduces the same two values. -/
theorem insertReview_updates_shop_aggregates (db : DB) (r : Review) (now now2 : Nat) :
    (∀ s ∈ (insertReview now db r).shops, s.id = r.shop_id →
      s.rating_avg =
        some (round2 (((shopReviews (insertReview now db r).reviews r.shop_id).map
            (fun v => (v.rating : ℚ))).sum /
          ((shopReviews (insertReview now db r).reviews r.shop_id).length : ℚ))) ∧
      s.total_reviews =
        ((shopReviews (insertReview now db r).reviews r.shop_id).length : Int)) ∧
    (update_shop_rating now2 (insertReview now db r) r).shops.map
        (fun s => (s.id, s.rating_avg, s.total_reviews)) =
      (insertReview now db r).shops.map
        (fun s => (s.id, s.rating_avg, s.total_reviews)) := by
  constructor
  · intro s hs hsid
    obtain ⟨h1, h2⟩ := insertReview_aggregates now db r s hs hsid
    rw [h1, avgRating_ne_nil (shopReviews_insert_ne_nil now db r), Option.map_some']
    exact ⟨rfl, h2⟩
  · rw [update_shop_rating_shops now2 (insertReview now db r) r, List.map_map]
    apply List.map_congr_left
    intro s hs
    by_cases h0 : s.id = r.shop_id
    · obtain ⟨h1, h2⟩ := insertReview_aggregates now db r s hs h0
      simp only [Function.comp_apply, if_pos h0, update_updated_at_column_shop]
      rw [h1, h2]
    · simp only [Function.comp_apply, if_neg h0]

/-- Witness for C2: inserting a 4-star review into the demo state whose
shop has one 5-star review yields cached aggregates 4.50 and 2, equal to
the recomputed mean and count, and re-running the trigger at a later time
reproduces the same values. -/
theorem insertReview_updates_shop_aggregates_witness :
    (demoShopAfter ∈ (insertReview 3 demoDB7 demoReview2).shops ∧
      demoShopAfter.id = demoReview2.shop_id) ∧
    (demoShopAfter.rating_avg =
        some (round2 (((shopReviews (insertReview 3 demoDB7 demoReview2).reviews
            demoReview2.shop_id).map (fun v => (v.rating : ℚ))).sum /
          ((shopReviews (insertReview 3 demoDB7 demoReview2).reviews
            demoReview2.shop_id).length : ℚ))) ∧
      demoShopAfter.total_reviews =
        ((shopReviews (insertReview 3 demoDB7 demoReview2).reviews
          demoReview2.shop_id).length : Int)) ∧
    (update_shop_rating 8 (insertReview 3 demoDB7 demoReview2) demoReview2).shops.map
        (fun s => (s.id, s.rating_avg, s.total_reviews)) =
      (insertReview 3 demoDB7 demoReview2).shops.map
        (fun s => (s.id, s.rating_avg, s.total_reviews)) ∧
    demoShopAfter.rating_avg = some (9 / 2) ∧ demoShopAfter.total_reviews = 2 := by
  have hmem : demoShopAfter ∈ (insertReview 3 demoDB7 demoReview2).shops := by
    with_unfolding_all decide
  exact ⟨⟨hmem, by decide⟩,
    (insertReview_updates_shop_aggregates demoDB7 demoReview2 3 8).1 demoShopAfter hmem
      (by decide),
    (insertReview_updates_shop_aggregates demoDB7 demoReview2 3 8).2,
    by with_unfolding_all decide, by decide⟩

/-- Counterexample for C7: the reviews UPDATE policy lets an author change
a review's rating, but no trigger fires on UPDATE, so the shop's cached
aggregates go stale: in a consistent state with one 5-star review, editing
it down to 1 star leaves rating_avg cached at 5. -/
theorem review_update_breaks_shop_aggregates :
    shopAggregatesConsistent demoDB7 ∧
    ¬ shopAggregatesConsistent (updateReviewRating demoDB7 1 1) := by
  with_unfolding_all decide

/-- Claim C7 as amended: the aggregate invariant is preserved by review
inserts (the trigger recomputes the owning shop from scratch and other
shops' review sets are unchanged), but it is not maintained across
permitted review updates, which fire no trigger. -/
theorem insertReview_preserves_shop_aggregates (db : DB) (r : Review) (now : Nat)
    (h : shopAggregatesConsistent db) :
    shopAggregatesConsistent (insertReview now db r) := by
  intro s hs
  rw [insertReview_shops] at hs
  rcases List.mem_map.mp hs with ⟨s0, hs0, rfl⟩
  by_cases h0 : s0.id = r.shop_id
  · simp only [if_pos h0, update_updated_at_column_shop]
    rw [h0]
    exact ⟨rfl, rfl⟩
  · simp only [if_neg h0]
    have hsr : shopReviews (insertReview now db r).reviews s0.id =
        shopReviews db.reviews s0.id := by
      rw [insertReview_reviews]
      unfold shopReviews
      rw [List.filter_append]
      have hone : (([r] : List Review).filter (fun v => v.shop_id == s0.id)) = [] := by
        simp only [List.filter_eq_nil_iff, List.mem_singleton, beq_iff_eq]
        intro a ha
        rw [ha]
        exact fun he => h0 he.symm
      rw [hone, List.append_nil]
    rw [hsr]
    exact h s0 hs0

/-- Witness for the amended C7: the demo state is consistent and stays
consistent after the 4-star review insert recomputes the aggregates. -/
theorem insertReview_preserves_shop_aggregates_witness :
    shopAggregatesConsistent demoDB7 ∧
    shopAggregatesConsistent (insertReview 3 demoDB7 demoReview2) := by
  have h : shopAggregatesConsistent demoDB7 := by with_unfolding_all decide
  exact ⟨h, insertReview_preserves_shop_aggregates demoDB7 demoReview2 3 h⟩

/-- Witness for C10: the frame property instantiated on the demo state. -/
theorem update_queue_positions_frame_witness :
    (demoDBA.bookings.map Booking.id).Nodup ∧
    ((update_queue_positions 9 demoDBA 1).shops = demoDBA.shops ∧
      (update_queue_positions 9 demoDBA 1).reviews = demoDBA.reviews ∧
      List.Forall₂ (fun b b' : Booking =>
          b'.id = b.id ∧ b'.user_id = b.user_id ∧ b'.shop_id = b.shop_id ∧
          b'.service_name = b.service_name ∧ b'.status = b.status ∧
          b'.joined_at = b.joined_at ∧
          (¬ (b.shop_id = 1 ∧ b.status = BookingStatus.waiting) → b' = b))
        demoDBA.bookings (update_queue_positions 9 demoDBA 1).bookings) :=
  ⟨by decide, update_queue_positions_frame demoDBA 1 9 (by decide)⟩

/-- Claim C4: the timestamp touch trigger overwrites updated_at with the
current time on every update to a booking, shop or profile row, whatever
value the caller supplied in NEW, so under a monotone clock the stored
modification timestamp never decreases across successive updates. -/
theorem update_updated_at_column_overwrites (t1 t2 : Nat) (b b2 : Booking) (s : Shop)
    (p : Profile) :
    (update_updated_at_column t1 b).updated_at = t1 ∧
    (update_updated_at_column_shop t1 s).updated_at = t1 ∧
    (update_updated_at_column_profile t1 p).updated_at = t1 ∧
    (t1 ≤ t2 →
      (update_updated_at_column t1 b).updated_at ≤
        (update_updated_at_column t2 b2).updated_at) :=
  ⟨rfl, rfl, rfl, fun h => h⟩

/-- Witness for C4: updating booking A at time 5 (with a stale updated_at
of 0 in NEW) stores 5, and a later update at time 8 stores a timestamp
that is not smaller. -/
theorem update_updated_at_column_overwrites_witness :
    (5 : Nat) ≤ 8 ∧
    (update_updated_at_column 5 demoBookingA).updated_at = 5 ∧
    (update_updated_at_column_shop 5 demoShopA).updated_at = 5 ∧
    (update_updated_at_column_profile 5 demoProfile7).updated_at = 5 ∧
    (update_updated_at_column 5 demoBookingA).updated_at ≤
      (update_updated_at_column 8 demoBookingB).updated_at :=
  ⟨by decide,
    (update_updated_at_column_overwrites 5 8 demoBookingA demoBookingB demoShopA
      demoProfile7).1,
    (update_updated_at_column_overwrites 5 8 demoBookingA demoBookingB demoShopA
      demoProfile7).2.1,
    (update_updated_at_column_overwrites 5 8 demoBookingA demoBookingB demoShopA
      demoProfile7).2.2.1,
    (update_updated_at_column_overwrites 5 8 demoBookingA demoBookingB demoShopA
      demoProfile7).2.2.2 (by decide)⟩

theorem profileRowFor_user_id {now : Nat} {u : AuthUser} {q : Profile}
    (h : profileRowFor now u = Except.ok q) : q.user_id = u.id := by
  cases hm : u.meta_role with
  | none =>
    simp only [profileRowFor, hm, Except.ok.injEq] at h
    rw [← h]
  | some s =>
    cases hc : castUserRole s with
    | none => simp [profileRowFor, hm, hc] at h
    | some r =>
      simp only [profileRowFor, hm, hc, Except.ok.injEq] at h
      rw [← h]

/-- Claim C5: creating a fresh identity creates exactly one profile row for
it, with name and phone defaulting to the empty string when absent from
the signup metadata and role defaulting to customer when no role was
supplied, while a supplied valid role is honored. -/
theorem handle_new_user_creates_single_profile (now : Nat) (st : AuthDB) (u : AuthUser)
    (hfresh : ∀ p ∈ st.profiles, p.user_id ≠ u.id)
    (hrole : u.meta_role = none ∨
      ∃ s r, u.meta_role = some s ∧ castUserRole s = some r) :
    ∃ st2, createUser now st u = Except.ok st2 ∧
      (st2.profiles.filter (fun p => p.user_id == u.id)).length = 1 ∧
      ∀ p ∈ st2.profiles, p.user_id = u.id →
        p.name = u.meta_name.getD "" ∧ p.phone = u.meta_phone.getD "" ∧
        p.role = (match u.meta_role with
          | none => UserRole.customer
          | some s => (castUserRole s).getD UserRole.customer) := by
  have hrow : ∃ q, profileRowFor now u = Except.ok q ∧ q.user_id = u.id ∧
      q.name = u.meta_name.getD "" ∧ q.phone = u.meta_phone.getD "" ∧
      q.role = (match u.meta_role with
        | none => UserRole.customer
        | some s => (castUserRole s).getD UserRole.customer) := by
    rcases hrole with hn | ⟨s, r, hs, hc⟩
    · refine ⟨profileFor now u UserRole.customer, ?_, rfl, rfl, rfl, ?_⟩
      · simp [profileRowFor, profileFor, hn]
      · simp [profileFor, hn]
    · refine ⟨profileFor now u r, ?_, rfl, rfl, rfl, ?_⟩
      · simp [profileRowFor, profileFor, hs, hc]
      · simp [profileFor, hs, hc]
  rcases hrow with ⟨q, hq, hqid, hqname, hqphone, hqrole⟩
  have hany : (st.profiles.any (fun x => x.user_id == q.user_id)) = false := by
    rw [List.any_eq_false]
    intro x hx
    rw [hqid]
    simpa using hfresh x hx
  refine ⟨{ users := st.users ++ [u], profiles := st.profiles ++ [q] }, ?_, ?_, ?_⟩
  · simp [createUser, handle_new_user, insertProfileRow, hq, hany]
  · rw [List.filter_append]
    have h1 : st.profiles.filter (fun p => p.user_id == u.id) = [] := by
      rw [List.filter_eq_nil_iff]
      intro p hp
      simpa using hfresh p hp
    have h2 : (([q] : List Profile).filter (fun p => p.user_id == u.id)) = [q] := by
      simp [hqid]
    rw [h1, h2]
    rfl
  · intro p hp hpid
    rcases List.mem_append.mp hp with hl | hr
    · exact absurd hpid (hfresh p hl)
    · rw [List.mem_singleton.mp hr]
      exact ⟨hqname, hqphone, hqrole⟩

/-- Witness for C5: signing up identity 7 with name Alice, no phone, and
the explicit valid role barber on an empty state creates exactly one
profile for it, with phone defaulted to the empty string and role barber. -/
theorem handle_new_user_creates_single_profile_witness :
    (∀ p ∈ demoAuthEmpty.profiles, p.user_id ≠ demoUserFresh.id) ∧
    (∃ st2, createUser 4 demoAuthEmpty demoUserFresh = Except.ok st2 ∧
      (st2.profiles.filter (fun p => p.user_id == demoUserFresh.id)).length = 1 ∧
      ∀ p ∈ st2.profiles, p.user_id = demoUserFresh.id →
        p.name = demoUserFresh.meta_name.getD "" ∧
        p.phone = demoUserFresh.meta_phone.getD "" ∧
        p.role = (match demoUserFresh.meta_role with
          | none => UserRole.customer
          | some s => (castUserRole s).getD UserRole.customer)) :=
  ⟨fun p hp => absurd hp (by simp [demoAuthEmpty]),
    handle_new_user_creates_single_profile 4 demoAuthEmpty demoUserFresh
      (fun p hp => absurd hp (by simp [demoAuthEmpty]))
      (Or.inr ⟨"barber", UserRole.barber, rfl, rfl⟩)⟩

/-- Counterexample for C6: firing the profile-creation routine a second
time for identity 7 (whose profile row already exists) does not leave the
state unchanged without error: the UNIQUE(user_id) insert raises, and with
no exception handler in handle_new_user the error propagates and aborts
the enclosing identity-creation transaction. -/
theorem duplicate_profile_insert_errors :
    (demoAuthDup.profiles.filter (fun p => p.user_id == demoUserFresh.id)).length = 1 ∧
    createUser 4 demoAuthDup demoUserFresh = Except.error () :=
  ⟨by decide, by decide⟩

/-- Claim C6 as amended: firing profile creation again for an identity that
already has a profile row raises a unique violation, and because
handle_new_user has no exception handler the failure aborts the enclosing
identity-creation transaction (no row is changed); only the rollback, not
graceful handling, keeps the profile count at one. -/
theorem duplicate_profile_insert_aborts (now : Nat) (st : AuthDB) (u : AuthUser)
    (hdup : ∃ p ∈ st.profiles, p.user_id = u.id) :
    createUser now st u = Except.error () := by
  rcases hdup with ⟨p, hp, hpid⟩
  cases hrow : profileRowFor now u with
  | error e =>
    cases e
    simp [createUser, handle_new_user, hrow]
  | ok q =>
    have hq : q.user_id = u.id := profileRowFor_user_id hrow
    have hany : (st.profiles.any (fun x => x.user_id == q.user_id)) = true := by
      rw [List.any_eq_true]
      refine ⟨p, hp, ?_⟩
      rw [hq, hpid]
      exact beq_self_eq_true u.id
    simp [createUser, handle_new_user, insertProfileRow, hrow, hany]

/-- Witness for the amended C6: on the state where identity 7 already has
its profile, a duplicate firing returns the unique-violation error. -/
theorem duplicate_profile_insert_aborts_witness :
    (∃ p ∈ demoAuthDup.profiles, p.user_id = demoUserFresh.id) ∧
    createUser 9 demoAuthDup demoUserFresh = Except.error () :=
  ⟨⟨demoProfile7, by decide, by decide⟩,
    duplicate_profile_insert_aborts 9 demoAuthDup demoUserFresh
      ⟨demoProfile7, by decide, by decide⟩⟩

/-- Claim C9: a supplied role text outside the user_role enum makes the
cast raise, so profile creation errors and the identity-creation
transaction aborts with no profile row created; the customer default is
applied only when the role key is NULL in the metadata. -/
theorem invalid_role_cast_errors :
    (∀ (now : Nat) (st : AuthDB) (u : AuthUser) (s : String),
      u.meta_role = some s → castUserRole s = none →
      createUser now st u = Except.error ()) ∧
    (∀ (now : Nat) (u : AuthUser), u.meta_role = none →
      profileRowFor now u = Except.ok
        { id := u.id, user_id := u.id, name := u.meta_name.getD "",
          phone := u.meta_phone.getD "", role := UserRole.customer,
          updated_at := now }) := by
  constructor
  · intro now st u s hs hc
    simp [createUser, handle_new_user, profileRowFor, hs, hc]
  · intro now u hn
    simp [profileRowFor, hn]

/-- Witness for C9: the role text owner is outside the enum, so signup of
that user errors and creates nothing, while the user with no role key gets
a profile with role customer. -/
theorem invalid_role_cast_errors_witness :
    (demoUserBadRole.meta_role = some "owner" ∧ castUserRole "owner" = none) ∧
    createUser 4 demoAuthEmpty demoUserBadRole = Except.error () ∧
    demoUserNoRole.meta_role = none ∧
    profileRowFor 4 demoUserNoRole = Except.ok
      { id := demoUserNoRole.id, user_id := demoUserNoRole.id,
        name := demoUserNoRole.meta_name.getD "",
        phone := demoUserNoRole.meta_phone.getD "",
        role := UserRole.customer, updated_at := 4 } :=
  ⟨⟨rfl, rfl⟩,
    invalid_role_cast_errors.1 4 demoAuthEmpty demoUserBadRole "owner" rfl rfl,
    rfl,
    invalid_role_cast_errors.2 4 demoUserNoRole rfl⟩

end TrimTime
